import Mathlib

/-!
Verification of the SRM timetable backend (`src/backend/app.py`).

The file has two parts:

* A shallow embedding of the code visible under `src/backend/app.py`:
  the SQLite schema created by `init_db` (admission predicates for row
  inserts, following SQLite semantics of `NOT NULL`, `CHECK` and
  `DEFAULT`), and the `/api/auth/login` handler.

* A model of the timetable generation engine.  The engine itself
  (`ai_timetable.TimetableGenerator`, imported on line 10 of `app.py`)
  is part of the repository but its file is not available; it is
  modelled from the specification (sections 3, 4.2-4.4 and 7) as a
  backtracking constraint solver over department snapshots.
-/

namespace SRM

/-! ## Part 1: the SQLite schema created by `init_db` -/

/-- Allowed values of the `users.role` column
(`CHECK (role IN ('main_admin', 'dept_admin', 'staff'))`). -/
def userRoleValues : List String := ["main_admin", "dept_admin", "staff"]

/-- Allowed non-NULL values of the `users.staff_role` column
(`CHECK (staff_role IN ('assistant_professor', 'professor', 'hod'))`). -/
def staffRoleValues : List String := ["assistant_professor", "professor", "hod"]

/-- A candidate row for the `users` table.  `none` in a field means the
inserted value is SQL NULL (or the column is omitted). -/
structure UserInsert where
  name : Option String
  email : Option String
  passwordHash : Option String
  role : Option String
  departmentId : Option Nat
  staffRole : Option String
  subjectsSelected : Option String
  subjectsLocked : Option Bool
deriving Repr, DecidableEq

/-- Whether the `users` table accepts the row.  `name`, `email`,
`password_hash` and `role` are `NOT NULL`; `role` and `staff_role` carry
`CHECK ... IN (...)` clauses.  Per SQLite semantics a `CHECK` constraint
is satisfied when its expression evaluates to TRUE or to NULL, so a NULL
`staff_role` passes its `CHECK`. -/
def userRowAccepted (r : UserInsert) : Bool :=
  r.name.isSome && r.email.isSome && r.passwordHash.isSome &&
  (match r.role with
   | none => false
   | some ro => userRoleValues.contains ro) &&
  (match r.staffRole with
   | none => true
   | some sr => staffRoleValues.contains sr)

/-- A candidate row for the `subjects` table.  The `credits` field is
doubly optional: `none` means the column was omitted from the INSERT (so
the `DEFAULT 3` applies), `some none` means an explicit SQL NULL was
inserted, `some (some n)` an explicit integer. -/
structure SubjectInsert where
  name : Option String
  code : Option String
  departmentId : Option Nat
  credits : Option (Option Int)
deriving Repr, DecidableEq

/-- Whether the `subjects` table accepts the row: `name`, `code` and
`department_id` are `NOT NULL`; `credits` has no constraint at all, only
`DEFAULT 3`. -/
def subjectRowAccepted (r : SubjectInsert) : Bool :=
  r.name.isSome && r.code.isSome && r.departmentId.isSome

/-- The value stored in the `credits` column for an accepted subject
row: the `DEFAULT 3` when the column was omitted, otherwise whatever was
inserted (possibly NULL). -/
def storedCredits (r : SubjectInsert) : Option Int :=
  match r.credits with
  | none => some 3
  | some v => v

/-- A candidate row for the `classrooms` table. -/
structure ClassroomInsert where
  name : Option String
  capacity : Option Int
  departmentId : Option Nat
deriving Repr, DecidableEq

/-- Whether the `classrooms` table accepts the row: `name`, `capacity`
and `department_id` are `NOT NULL`; there is no other constraint on
`capacity`. -/
def classroomRowAccepted (r : ClassroomInsert) : Bool :=
  r.name.isSome && r.capacity.isSome && r.departmentId.isSome

/-! ## Part 2: the `/api/auth/login` handler -/

/-- Python `str.strip` whitespace for the ASCII range: the characters
removed by `'...'.strip()`. -/
def pyIsSpace (c : Char) : Bool :=
  c = ' ' || c = '\t' || c = '\n' || c = '\x0d' || c = '\x0b' || c = '\x0c'

/-- Python `str.strip()`: drop leading and trailing whitespace. -/
def pyStrip (s : String) : String :=
  String.mk (((s.data.dropWhile pyIsSpace).reverse.dropWhile pyIsSpace).reverse)

/-- Python `str.lower()` restricted to ASCII letters. -/
def pyLowerChar (c : Char) : Char :=
  if 'A' ≤ c && c ≤ 'Z' then Char.ofNat (c.toNat + 32) else c

/-- Python `str.lower()` on a whole string. -/
def pyLower (s : String) : String :=
  String.mk (s.data.map pyLowerChar)

/-- The email normalisation performed on line 124 of `app.py`:
`data.get('email', '').strip().lower()`. -/
def normalizeEmail (s : String) : String :=
  pyLower (pyStrip s)

/-- A stored row of the `users` table as the login query reads it. -/
structure UserRow where
  id : Nat
  name : String
  email : String
  passwordHash : String
  role : String
  departmentId : Option Nat
  staffRole : Option String
  subjectsSelected : Option String
  subjectsLocked : Bool
deriving Repr, DecidableEq

/-- A stored row of the `departments` table. -/
structure DeptRow where
  id : Nat
  name : String
deriving Repr, DecidableEq

/-- A stored row of the `subjects` table (as stored, after defaults). -/
structure SubjectRow where
  id : Nat
  name : String
  code : String
  departmentId : Nat
  credits : Option Int
deriving Repr, DecidableEq

/-- A stored row of the `classrooms` table. -/
structure ClassroomRow where
  id : Nat
  name : String
  capacity : Int
  departmentId : Nat
deriving Repr, DecidableEq

/-- A stored row of the `timetables` table. -/
structure TimetableRow where
  id : Nat
  departmentId : Nat
  day : String
  timeSlot : String
  subjectId : Nat
  staffId : Nat
  classroomId : Nat
deriving Repr, DecidableEq

/-- A stored row of the `constraints` table. -/
structure ConstraintRow where
  id : Nat
  departmentId : Option Nat
  role : String
  subjectType : String
  maxSubjects : Int
  maxHours : Int
  createdBy : Nat
deriving Repr, DecidableEq

/-- The whole database `timetable.db`: the six tables `init_db`
creates. -/
structure DB where
  users : List UserRow
  departments : List DeptRow
  subjects : List SubjectRow
  classrooms : List ClassroomRow
  timetables : List TimetableRow
  constrs : List ConstraintRow
deriving Repr, DecidableEq

/-- The JSON body of a login request; `none` fields are absent keys
(`data.get` then yields its default). -/
structure LoginBody where
  email : Option String
  password : Option String
deriving Repr, DecidableEq

/-- The user object assembled on lines 147-157 of `app.py`. -/
structure UserPayload where
  id : String
  name : String
  email : String
  role : String
  departmentId : Option String
  staffRole : Option String
  subjectsSelected : List String
  subjectsLocked : Bool
  departmentName : Option String
deriving Repr, DecidableEq

/-- The response of the login endpoint: an error status with its
message string, or a 200 with the user payload and a token. -/
inductive LoginResp where
  | err (status : Nat) (msg : String)
  | ok (user : UserPayload) (token : String)
deriving Repr, DecidableEq

/-- The `SELECT ... FROM users u LEFT JOIN departments d ... WHERE
u.email = ?` of lines 133-139 followed by `fetchone()`: the first users
row whose stored email equals the key. -/
def findUserByEmail (db : DB) (e : String) : Option UserRow :=
  db.users.find? (fun u => u.email = e)

/-- The `d.name as department_name` column of the LEFT JOIN: present
only when the user has a department id matching a departments row. -/
def deptNameOf (db : DB) (d : Option Nat) : Option String :=
  d.bind (fun i => (db.departments.find? (fun r => r.id = i)).map DeptRow.name)

/-- Python `s.split(',')` for a non-empty string (`String.splitOn`
matches Python on non-empty input). -/
def pySplitComma (s : String) : List String := s.splitOn ","

/-- Lines 147-157: the user dict. `str(user_data[5]) if user_data[5]
else None` maps both NULL and 0 to None; `user_data[7].split(',') if
user_data[7] else []` maps both NULL and the empty string to `[]`. -/
def mkUserPayload (db : DB) (u : UserRow) : UserPayload :=
  { id := toString u.id
    name := u.name
    email := u.email
    role := u.role
    departmentId :=
      match u.departmentId with
      | none => none
      | some d => if d = 0 then none else some (toString d)
    staffRole := u.staffRole
    subjectsSelected :=
      match u.subjectsSelected with
      | none => []
      | some s => if s = "" then [] else pySplitComma s
    subjectsLocked := u.subjectsLocked
    departmentName := deptNameOf db u.departmentId }

/-- The login handler, lines 120-170 of `app.py`.  `chk` models
`werkzeug.security.check_password_hash` and `mkTok` models
`create_access_token`, both external collaborators.  `body = none`
models a request whose body is not JSON: `request.get_json()` returns
`None`, `None.get` raises, and the `except` branch answers 500.  The
handler only ever reads the store, so it returns the database it was
given in every branch. -/
def login (chk : String → String → Bool) (mkTok : String → String)
    (body : Option LoginBody) (db : DB) : LoginResp × DB :=
  match body with
  | none => (.err 500 "Login failed", db)
  | some b =>
    let email := normalizeEmail (b.email.getD "")
    let password := b.password.getD ""
    if email = "" || password = "" then
      (.err 400 "Email and password are required", db)
    else
      match findUserByEmail db email with
      | none => (.err 401 "Invalid email or password", db)
      | some u =>
        if chk u.passwordHash password then
          (.ok (mkUserPayload db u) (mkTok (toString u.id)), db)
        else
          (.err 401 "Invalid email or password", db)

/-! ## Part 3: the generation engine

`app.py` imports `TimetableGenerator` from `ai_timetable` (line 10); that
module belongs to the repository but is not among the available source
files, so the engine is modelled from the specification: a per-department
backtracking constraint solver (spec sections 3, 4.2-4.4, 7) with a
seeded value ordering and a restart policy, run department by department
against a global staff-occupancy accumulator (serialized generation,
spec section 5 policy (a)). -/

/-- Modelled from the spec: the staff roles of the domain model
(`ai_timetable` is missing). -/
inductive StaffRole where
  | assistantProfessor
  | professor
  | hod
deriving Repr, DecidableEq

/-- Modelled from the spec: a RoleConstraint resolved to its plain
numeric limit pair (spec section 9). -/
structure RoleLimits where
  maxSubjects : Nat
  maxHours : Nat
deriving Repr, DecidableEq

/-- Modelled from the spec: a Subject of the domain-model snapshot. -/
structure Subject where
  id : Nat
  name : String
  credits : Nat
deriving Repr, DecidableEq

/-- Modelled from the spec: a Staff member of the snapshot, with the
subjects they selected and the lock flag. -/
structure StaffMember where
  id : Nat
  role : StaffRole
  selected : List Nat
  locked : Bool
deriving Repr, DecidableEq

/-- Modelled from the spec: a Classroom of the snapshot. -/
structure Room where
  id : Nat
  capacity : Nat
deriving Repr, DecidableEq

/-- Modelled from the spec: one department's immutable snapshot, with
the per-role limits already resolved and the shared time grid of
(day, slot) pairs. -/
structure Snapshot where
  deptId : Nat
  subjects : List Subject
  staff : List StaffMember
  classrooms : List Room
  apLimits : RoleLimits
  profLimits : RoleLimits
  hodLimits : RoleLimits
  grid : List (Nat × Nat)
deriving Repr, DecidableEq

/-- Modelled from the spec: the configuration surface of section 6
relevant to generation. -/
structure Config where
  unitsPerCredit : Nat
  backtrackBudget : Nat
  restartAttempts : Nat
  randomSeed : Nat
deriving Repr, DecidableEq

/-- Modelled from the spec: one scheduled teaching unit, the value of
one CSP variable. -/
structure Placement where
  subjectId : Nat
  staffId : Nat
  classroomId : Nat
  day : Nat
  slot : Nat
deriving Repr, DecidableEq

/-- Modelled from the spec: one output row of the timetables store,
a placement tagged with its department. -/
structure Row where
  deptId : Nat
  pl : Placement
deriving Repr, DecidableEq

/-- Modelled from the spec: the limit pair looked up once per staff
member from their role. -/
def limitsFor (snap : Snapshot) (r : StaffRole) : RoleLimits :=
  match r with
  | .assistantProfessor => snap.apLimits
  | .professor => snap.profLimits
  | .hod => snap.hodLimits

/-- Modelled from the spec: the candidate occupies a (day, slot) at
which its staff member is already busy in a previously generated
department (the global occupancy table of section 5). -/
def staffBusyRows (rows : List Row) (c : Placement) : Bool :=
  rows.any fun r => r.pl.staffId = c.staffId && r.pl.day = c.day && r.pl.slot = c.slot

/-- Modelled from the spec: the candidate's staff member is already
busy at this (day, slot) in the current department's partial
assignment. -/
def staffBusy (asgn : List Placement) (c : Placement) : Bool :=
  asgn.any fun p => p.staffId = c.staffId && p.day = c.day && p.slot = c.slot

/-- Modelled from the spec: the candidate's classroom is already busy
at this (day, slot) in this department. -/
def roomBusy (asgn : List Placement) (c : Placement) : Bool :=
  asgn.any fun p => p.classroomId = c.classroomId && p.day = c.day && p.slot = c.slot

/-- Modelled from the spec: this department's (day, slot) already has a
subject. -/
def slotFilled (asgn : List Placement) (c : Placement) : Bool :=
  asgn.any fun p => p.day = c.day && p.slot = c.slot

/-- Modelled from the spec: weekly units already assigned to a staff
member in the current partial assignment. -/
def staffHours (asgn : List Placement) (sid : Nat) : Nat :=
  asgn.countP fun p => p.staffId = sid

/-- Modelled from the spec: the distinct subjects a staff member
already teaches in the current partial assignment. -/
def subjectsTaught (asgn : List Placement) (sid : Nat) : List Nat :=
  ((asgn.filter fun p => p.staffId = sid).map Placement.subjectId).dedup

/-- Modelled from the spec: the hard-constraint kinds of section 4.2,
in their fixed diagnostic order. -/
inductive ConstraintKind where
  | staffDoubleBooked
  | classroomDoubleBooked
  | slotAlreadyFilled
  | staffNotQualified
  | staffOverHours
  | staffOverSubjectCount
deriving Repr, DecidableEq

/-- Modelled from the spec: `canPlace(partial, candidate)` of section
4.2 — `none` means the candidate may be placed, `some k` names the first
violated hard constraint in the fixed short-circuit order.  The staff
double-booking check is global (prior departments' rows and the current
partial assignment); classroom and slot occupancy are scoped to the
department being generated.  Capacity is treated as the default
non-hard policy (spec section 9 leaves it open). -/
def canPlace (snap : Snapshot) (busy : List Row) (asgn : List Placement)
    (c : Placement) : Option ConstraintKind :=
  if staffBusyRows busy c || staffBusy asgn c then some .staffDoubleBooked
  else if roomBusy asgn c then some .classroomDoubleBooked
  else if slotFilled asgn c then some .slotAlreadyFilled
  else
    match snap.staff.find? fun st => st.id = c.staffId with
    | none => some .staffNotQualified
    | some st =>
      if c.subjectId ∈ st.selected then
        if (limitsFor snap st.role).maxHours < staffHours asgn c.staffId + 1 then
          some .staffOverHours
        else if c.subjectId ∉ subjectsTaught asgn c.staffId ∧
            (limitsFor snap st.role).maxSubjects <
              (subjectsTaught asgn c.staffId).length + 1 then
          some .staffOverSubjectCount
        else none
      else some .staffNotQualified

/-- Modelled from the spec: the staff eligible to teach a subject —
selection-locked staff who selected it. -/
def qualifiedStaff (snap : Snapshot) (s : Subject) : List StaffMember :=
  snap.staff.filter fun st => st.locked && st.selected.contains s.id

/-- Modelled from the spec: units required per subject, via the
explicit `unitsPerCredit` conversion policy. -/
def requiredUnits (cfg : Config) (s : Subject) : Nat :=
  s.credits * cfg.unitsPerCredit

/-- Modelled from the spec: the static domain of a unit variable — all
(staff, classroom, day, slot) tuples passing static eligibility, in the
stable order staff id, classroom id, day, slot. -/
def baseCandidates (snap : Snapshot) (s : Subject) : List Placement :=
  (qualifiedStaff snap s).flatMap fun st =>
    snap.classrooms.flatMap fun r =>
      snap.grid.map fun ds => ⟨s.id, st.id, r.id, ds.1, ds.2⟩

/-- Modelled from the spec: the seeded rotation used as the randomized
tie-break of the value order on restarts. -/
def rotate {α : Type} (n : Nat) (l : List α) : List α :=
  l.drop (n % (l.length + 1)) ++ l.take (n % (l.length + 1))

/-- Modelled from the spec: a variable's value order for a given
seed. -/
def candidates (snap : Snapshot) (seed : Nat) (s : Subject) : List Placement :=
  rotate seed (baseCandidates snap s)

/-- Modelled from the spec: the unit variables — one copy of a subject
per required teaching unit. -/
def unitVars (snap : Snapshot) (cfg : Config) : List Subject :=
  snap.subjects.flatMap fun s => List.replicate (requiredUnits cfg s) s

/-- Modelled from the spec: the most-constrained-first variable order —
smaller static domain first, ties by credit weight descending, then by
subject id for determinism. -/
def varLE (snap : Snapshot) (a b : Subject) : Bool :=
  let ca := (baseCandidates snap a).length
  let cb := (baseCandidates snap b).length
  ca < cb || (ca = cb && (b.credits < a.credits ||
    (a.credits = b.credits && a.id ≤ b.id)))

/-- Insertion step of the variable-ordering sort. -/
def insertVar (le : Subject → Subject → Bool) (x : Subject) :
    List Subject → List Subject
  | [] => [x]
  | y :: ys => if le x y then x :: y :: ys else y :: insertVar le x ys

/-- Stable insertion sort applying the variable-ordering heuristic. -/
def sortVars (le : Subject → Subject → Bool) : List Subject → List Subject
  | [] => []
  | x :: xs => insertVar le x (sortVars le xs)

/-- Modelled from the spec: try the candidates of the current unit in
order; `step` continues the search below a successful placement.  The
budget counts backtrack steps: returning from a failed subtree with an
exhausted budget aborts, otherwise one budget unit is consumed and the
next candidate is tried. -/
def tryCands (snap : Snapshot) (busy : List Row)
    (step : List Placement → Nat → Option (List Placement) × Nat) :
    List Placement → List Placement → Nat → Option (List Placement) × Nat
  | [], _, b => (none, b)
  | c :: cs, asgn, b =>
    match canPlace snap busy asgn c with
    | some _ => tryCands snap busy step cs asgn b
    | none =>
      match step (c :: asgn) b with
      | (some a, b2) => (some a, b2)
      | (none, b2) =>
        if b2 = 0 then (none, 0)
        else tryCands snap busy step cs asgn (b2 - 1)

/-- Modelled from the spec: depth-first backtracking over the unit
variables, the search engine of section 4.3. -/
def solveVars (snap : Snapshot) (busy : List Row) (seed : Nat) :
    List Subject → List Placement → Nat → Option (List Placement) × Nat
  | [], asgn, b => (some asgn, b)
  | v :: rest, asgn, b =>
    tryCands snap busy (fun a n => solveVars snap busy seed rest a n)
      (candidates snap seed v) asgn b

/-- Modelled from the spec: one full search attempt under one seed,
from the empty assignment with a fresh budget. -/
def attempt (snap : Snapshot) (busy : List Row) (cfg : Config) (seed : Nat) :
    Option (List Placement) × Nat :=
  solveVars snap busy seed (sortVars (varLE snap) (unitVars snap cfg)) []
    cfg.backtrackBudget

/-- Modelled from the spec: the restart policy — on failure retry with
the next derived seed, a bounded number of times. -/
def attemptLoop (snap : Snapshot) (busy : List Row) (cfg : Config) :
    Nat → Nat → Option (List Placement) × Nat
  | seed, 0 => attempt snap busy cfg seed
  | seed, n + 1 =>
    match attempt snap busy cfg seed with
    | (some a, b2) => (some a, b2)
    | (none, _) => attemptLoop snap busy cfg (seed + 1) n

/-- Modelled from the spec: the result of `generate` — a successful
assignment, an unsatisfiable-by-construction diagnostic naming the
offending subject, or budget exhaustion. -/
inductive GenResult where
  | success (assignment : List Placement)
  | unsat (subjectId : Nat) (subjectName : String)
  | exhausted
deriving Repr, DecidableEq

/-- Modelled from the spec: the first subject that is unsatisfiable by
construction — zero eligible qualified staff or zero eligible
classrooms. -/
def unsatSubject (snap : Snapshot) : Option Subject :=
  snap.subjects.find? fun s =>
    (qualifiedStaff snap s).isEmpty || snap.classrooms.isEmpty

/-- Modelled from the spec: the generation orchestrator of section 4.4.
The unsatisfiable-by-construction precondition is checked before any
search; the second component is the backtrack budget still unconsumed
when the call returns (the full budget when no search ran). -/
def generate (snap : Snapshot) (busy : List Row) (cfg : Config) :
    GenResult × Nat :=
  match unsatSubject snap with
  | some s => (.unsat s.id s.name, cfg.backtrackBudget)
  | none =>
    match attemptLoop snap busy cfg cfg.randomSeed cfg.restartAttempts with
    | (some a, b2) => (.success a, b2)
    | (none, b2) => (.exhausted, b2)

/-- The rows a successful department assignment contributes to the
timetables store. -/
def rowsOf (deptId : Nat) (asgn : List Placement) : List Row :=
  asgn.map fun p => ⟨deptId, p⟩

/-- Modelled from the spec: serialized generation over the departments
(section 5 policy (a)), each successful department's rows joining the
global occupancy the next department is generated against; a failed
department contributes no rows. -/
def generateAll (cfg : Config) : List Snapshot → List Row → List Row
  | [], acc => acc
  | snap :: rest, acc =>
    match generate snap acc cfg with
    | (.success a, _) => generateAll cfg rest (acc ++ rowsOf snap.deptId a)
    | _ => generateAll cfg rest acc

/-! ## Part 4: invariant predicates over engine output -/

/-- No staff clash within the placement list, nor against the busy
rows: the staff-availability part of the section 3 invariants, relative
to the global occupancy a department is generated against. -/
def StaffOk (busy : List Row) (l : List Placement) : Prop :=
  (l.Pairwise fun p q =>
    ¬(p.staffId = q.staffId ∧ p.day = q.day ∧ p.slot = q.slot)) ∧
  ∀ p ∈ l, ∀ r ∈ busy,
    ¬(r.pl.staffId = p.staffId ∧ r.pl.day = p.day ∧ r.pl.slot = p.slot)

/-- No two output rows share staff, day and slot — the global
staff-availability invariant over the whole timetables output. -/
def RowsOk (rows : List Row) : Prop :=
  rows.Pairwise fun r1 r2 =>
    ¬(r1.pl.staffId = r2.pl.staffId ∧ r1.pl.day = r2.pl.day ∧
      r1.pl.slot = r2.pl.slot)

/-! ## Part 5: concrete instances used to exercise the definitions -/

/-- A users row with `role = 'staff'` and a NULL `staff_role`. -/
def staffRowNullRole : UserInsert :=
  ⟨some "Eve", some "eve@srm.edu", some "h1", some "staff", some 1, none,
    none, some false⟩

/-- A users row with `role = 'staff'` and `staff_role = 'hod'`. -/
def staffRowHod : UserInsert :=
  ⟨some "Hari", some "hod@srm.edu", some "h2", some "staff", some 1,
    some "hod", none, some true⟩

/-- A subjects row inserted with an explicit `credits` of 0. -/
def zeroCreditsSubjectRow : SubjectInsert :=
  ⟨some "Quantum", some "QC1", some 1, some (some 0)⟩

/-- A subjects row inserted without a `credits` value. -/
def defaultCreditsSubjectRow : SubjectInsert :=
  ⟨some "Maths", some "MA1", some 1, none⟩

/-- A classrooms row inserted with an explicit `capacity` of 0. -/
def zeroCapacityRoomRow : ClassroomInsert :=
  ⟨some "LabA", some 0, some 1⟩

/-- An ordinary accepted classrooms row. -/
def okRoomRow : ClassroomInsert :=
  ⟨some "R1", some 40, some 1⟩

/-- A concrete stand-in for the external password-hash check. -/
def chk0 : String → String → Bool := fun h p => h == p

/-- A concrete stand-in for the external token issuer. -/
def tok0 : String → String := fun s => s

/-- A stored user. -/
def alice : UserRow :=
  ⟨1, "Alice", "alice@srm.edu", "secret", "staff", some 1,
    some "professor", some "s1,s2", true⟩

/-- A store holding `alice` and her department. -/
def db0 : DB := ⟨[alice], [⟨1, "CSE"⟩], [], [], [], []⟩

/-- The empty store. -/
def dbEmpty : DB := ⟨[], [], [], [], [], []⟩

/-- The department snapshot of the spec's Scenario A: one subject of
two required units, one qualified locked staff member, one classroom,
a five-slot grid. -/
def snapA : Snapshot :=
  ⟨1, [⟨10, "Maths", 2⟩], [⟨5, .professor, [10], true⟩], [⟨7, 30⟩],
    ⟨1, 8⟩, ⟨2, 8⟩, ⟨1, 4⟩, [(0, 0), (0, 1), (1, 0), (1, 1), (2, 0)]⟩

/-- A configuration with one unit per credit, budget 10, two restarts,
seed 0. -/
def cfgA : Config := ⟨1, 10, 2, 0⟩

/-- Scenario A with the staff member's selection not covering the
subject: the subject has zero qualified staff. -/
def snapNoQualified : Snapshot :=
  ⟨1, [⟨10, "Maths", 2⟩], [⟨5, .professor, [99], true⟩], [⟨7, 30⟩],
    ⟨1, 8⟩, ⟨2, 8⟩, ⟨1, 4⟩, [(0, 0), (0, 1), (1, 0), (1, 1), (2, 0)]⟩

/-! ## Part 6: helper lemmas about the search engine -/

lemma staffBusy_false {asgn : List Placement} {c : Placement}
    (h : staffBusy asgn c = false) :
    ∀ p ∈ asgn, ¬(p.staffId = c.staffId ∧ p.day = c.day ∧ p.slot = c.slot) := by
  simp only [staffBusy, List.any_eq_false] at h
  intro p hp hc
  have := h p hp
  simp_all

lemma slotFilled_false {asgn : List Placement} {c : Placement}
    (h : slotFilled asgn c = false) :
    ∀ p ∈ asgn, ¬(p.day = c.day ∧ p.slot = c.slot) := by
  simp only [slotFilled, List.any_eq_false] at h
  intro p hp hc
  have := h p hp
  simp_all

lemma staffBusyRows_false {rows : List Row} {c : Placement}
    (h : staffBusyRows rows c = false) :
    ∀ r ∈ rows, ¬(r.pl.staffId = c.staffId ∧ r.pl.day = c.day ∧ r.pl.slot = c.slot) := by
  simp only [staffBusyRows, List.any_eq_false] at h
  intro r hr hc
  have := h r hr
  simp_all

/-- A candidate that `canPlace` admits passes the staff and slot
occupancy checks. -/
lemma canPlace_none {snap : Snapshot} {busy : List Row} {asgn : List Placement}
    {c : Placement} (h : canPlace snap busy asgn c = none) :
    staffBusyRows busy c = false ∧ staffBusy asgn c = false ∧
      slotFilled asgn c = false := by
  cases h1 : staffBusyRows busy c <;> cases h2 : staffBusy asgn c <;>
    cases h4 : roomBusy asgn c <;> cases h3 : slotFilled asgn c <;>
    simp_all [canPlace]

/-- Any predicate preserved by `canPlace`-guarded extension carries
through the candidate loop to a successful assignment. -/
lemma tryCands_some_preserves (snap : Snapshot) (busy : List Row)
    (P : List Placement → Prop)
    (step : List Placement → Nat → Option (List Placement) × Nat)
    (hstep : ∀ asgn b a b2, P asgn → step asgn b = (some a, b2) → P a)
    (hext : ∀ c asgn, canPlace snap busy asgn c = none → P asgn → P (c :: asgn))
    (cs : List Placement) :
    ∀ asgn b a b2, P asgn →
      tryCands snap busy step cs asgn b = (some a, b2) → P a := by
  induction cs with
  | nil =>
    intro asgn b a b2 _ h
    simp [tryCands] at h
  | cons c cs ih =>
    intro asgn b a b2 hP h
    simp only [tryCands] at h
    cases hcp : canPlace snap busy asgn c with
    | some k =>
      simp only [hcp] at h
      exact ih asgn b a b2 hP h
    | none =>
      simp only [hcp] at h
      cases hs : step (c :: asgn) b with
      | mk o b3 =>
        cases o with
        | some a2 =>
          simp only [hs] at h
          simp only [Prod.mk.injEq] at h
          obtain ⟨h1, rfl⟩ := h
          obtain rfl := Option.some.inj h1
          exact hstep _ _ _ _ (hext c asgn hcp hP) hs
        | none =>
          simp only [hs] at h
          by_cases hb : b3 = 0
          · rw [if_pos hb] at h
            simp at h
          · rw [if_neg hb] at h
            exact ih asgn (b3 - 1) a b2 hP h

/-- Any predicate preserved by `canPlace`-guarded extension carries
through the whole backtracking search. -/
lemma solveVars_some_preserves (snap : Snapshot) (busy : List Row) (seed : Nat)
    (P : List Placement → Prop)
    (hext : ∀ c asgn, canPlace snap busy asgn c = none → P asgn → P (c :: asgn)) :
    ∀ vars asgn b a b2, P asgn →
      solveVars snap busy seed vars asgn b = (some a, b2) → P a := by
  intro vars
  induction vars with
  | nil =>
    intro asgn b a b2 hP h
    simp only [solveVars, Prod.mk.injEq] at h
    obtain ⟨h1, rfl⟩ := h
    obtain rfl := Option.some.inj h1
    exact hP
  | cons v rest ih =>
    intro asgn b a b2 hP h
    simp only [solveVars] at h
    exact tryCands_some_preserves snap busy P _
      (fun asgn b a b2 hQ hs => ih asgn b a b2 hQ hs) hext
      (candidates snap seed v) asgn b a b2 hP h

lemma attempt_some_preserves (snap : Snapshot) (busy : List Row) (cfg : Config)
    (seed : Nat) (P : List Placement → Prop)
    (hext : ∀ c asgn, canPlace snap busy asgn c = none → P asgn → P (c :: asgn))
    (hnil : P []) :
    ∀ a b2, attempt snap busy cfg seed = (some a, b2) → P a := by
  intro a b2 h
  exact solveVars_some_preserves snap busy seed P hext _ [] cfg.backtrackBudget
    a b2 hnil h

lemma attemptLoop_some_preserves (snap : Snapshot) (busy : List Row) (cfg : Config)
    (P : List Placement → Prop)
    (hext : ∀ c asgn, canPlace snap busy asgn c = none → P asgn → P (c :: asgn))
    (hnil : P []) :
    ∀ tries seed a b2, attemptLoop snap busy cfg seed tries = (some a, b2) → P a := by
  intro tries
  induction tries with
  | zero =>
    intro seed a b2 h
    exact attempt_some_preserves snap busy cfg seed P hext hnil a b2 h
  | succ n ih =>
    intro seed a b2 h
    simp only [attemptLoop] at h
    cases hs : attempt snap busy cfg seed with
    | mk o b3 =>
      cases o with
      | some a2 =>
        simp only [hs] at h
        simp only [Prod.mk.injEq] at h
        obtain ⟨h1, rfl⟩ := h
        obtain rfl := Option.some.inj h1
        exact attempt_some_preserves snap busy cfg seed P hext hnil _ _ hs
      | none =>
        simp only [hs] at h
        exact ih (seed + 1) a b2 h

/-- Any predicate preserved by `canPlace`-guarded extension holds of
every assignment `generate` returns as successful. -/
lemma generate_success_preserves (snap : Snapshot) (busy : List Row) (cfg : Config)
    (P : List Placement → Prop)
    (hext : ∀ c asgn, canPlace snap busy asgn c = none → P asgn → P (c :: asgn))
    (hnil : P []) :
    ∀ a n, generate snap busy cfg = (.success a, n) → P a := by
  intro a n h
  unfold generate at h
  cases hu : unsatSubject snap with
  | some s =>
    simp only [hu] at h
    simp at h
  | none =>
    simp only [hu] at h
    cases hl : attemptLoop snap busy cfg cfg.randomSeed cfg.restartAttempts with
    | mk o b3 =>
      cases o with
      | some a2 =>
        simp only [hl] at h
        simp only [Prod.mk.injEq, GenResult.success.injEq] at h
        obtain ⟨rfl, rfl⟩ := h
        exact attemptLoop_some_preserves snap busy cfg P hext hnil _ _ _ _ hl
      | none =>
        simp only [hl] at h
        simp at h

/-- `canPlace`-guarded extension preserves staff-availability. -/
lemma staffOk_ext (snap : Snapshot) (busy : List Row) :
    ∀ c asgn, canPlace snap busy asgn c = none →
      StaffOk busy asgn → StaffOk busy (c :: asgn) := by
  intro c asgn hcp hok
  obtain ⟨h1, h2, _⟩ := canPlace_none hcp
  refine ⟨List.Pairwise.cons ?_ hok.1, ?_⟩
  · intro q hq hc
    exact staffBusy_false h2 q hq ⟨hc.1.symm, hc.2.1.symm, hc.2.2.symm⟩
  · intro p hp r hr
    rcases List.mem_cons.mp hp with rfl | hp2
    · exact staffBusyRows_false h1 r hr
    · exact hok.2 p hp2 r hr

/-- A department result free of staff clashes, appended to an already
clash-free output, keeps the whole output clash-free. -/
lemma rowsOk_append {acc : List Row} {a : List Placement} {d : Nat}
    (hacc : RowsOk acc) (ha : StaffOk acc a) :
    RowsOk (acc ++ rowsOf d a) := by
  rw [RowsOk, List.pairwise_append]
  refine ⟨hacc, ?_, ?_⟩
  · rw [rowsOf, List.pairwise_map]
    exact ha.1
  · intro r1 hr1 r2 hr2
    obtain ⟨p, hp, rfl⟩ := List.mem_map.mp hr2
    exact ha.2 p hp r1 hr1

/-- Serialized generation keeps the accumulated output free of global
staff clashes. -/
lemma generateAll_rowsOk (cfg : Config) :
    ∀ snaps acc, RowsOk acc → RowsOk (generateAll cfg snaps acc) := by
  intro snaps
  induction snaps with
  | nil =>
    intro acc h
    simpa [generateAll] using h
  | cons snap rest ih =>
    intro acc hacc
    simp only [generateAll]
    cases hg : generate snap acc cfg with
    | mk res n =>
      cases res with
      | success a =>
        have ha : StaffOk acc a :=
          generate_success_preserves snap acc cfg (StaffOk acc)
            (staffOk_ext snap acc)
            ⟨List.Pairwise.nil, by intro p hp; exact absurd hp (List.not_mem_nil p)⟩
            a n hg
        exact ih (acc ++ rowsOf snap.deptId a) (rowsOk_append hacc ha)
      | unsat sid sname => exact ih acc hacc
      | exhausted => exact ih acc hacc

/-- A subject with zero qualified staff or zero classrooms makes the
pre-search unsatisfiability check fire. -/
lemma unsatSubject_isSome {snap : Snapshot} {s : Subject}
    (hs : s ∈ snap.subjects)
    (hbad : qualifiedStaff snap s = [] ∨ snap.classrooms = []) :
    (unsatSubject snap).isSome := by
  rw [unsatSubject, List.find?_isSome]
  refine ⟨s, hs, ?_⟩
  rcases hbad with h | h <;> simp [h]

/-! ## Part 7: the claims -/

/-- C1.  Global staff uniqueness: in the rows the engine writes to the
timetables store across serialized generation of any list of department
snapshots, no (staff, day, slot) triple appears in two rows, across all
departments. -/
theorem C1_global_staff_slot_uniqueness (snaps : List Snapshot) (cfg : Config) :
    (generateAll cfg snaps []).Pairwise
      (fun r1 r2 => ¬(r1.pl.staffId = r2.pl.staffId ∧ r1.pl.day = r2.pl.day ∧
        r1.pl.slot = r2.pl.slot)) :=
  generateAll_rowsOk cfg snaps [] List.Pairwise.nil

/-- C2.  Per-department slot uniqueness: every assignment `generate`
returns as successful gives each (day, slot) of the department at most
one placement, so each (department, day, slot) key carries at most one
subject. -/
theorem C2_per_department_slot_uniqueness
    (snap : Snapshot) (busy : List Row) (cfg : Config)
    (a : List Placement) (n : Nat)
    (h : generate snap busy cfg = (.success a, n)) :
    a.Pairwise (fun p q => ¬(p.day = q.day ∧ p.slot = q.slot)) := by
  refine generate_success_preserves snap busy cfg
    (fun l => l.Pairwise fun p q => ¬(p.day = q.day ∧ p.slot = q.slot))
    ?_ List.Pairwise.nil a n h
  intro c asgn hcp hok
  have h3 := (canPlace_none hcp).2.2
  refine List.Pairwise.cons ?_ hok
  intro q hq hc
  exact slotFilled_false h3 q hq ⟨hc.1.symm, hc.2.symm⟩

/-- Witness for C2 on the spec's Scenario A: generation succeeds with
two units and the returned assignment has pairwise distinct
(day, slot) keys. -/
theorem C2_per_department_slot_uniqueness_witness :
    generate snapA [] cfgA =
      (.success [⟨10, 5, 7, 0, 1⟩, ⟨10, 5, 7, 0, 0⟩], 10) ∧
    ([⟨10, 5, 7, 0, 1⟩, ⟨10, 5, 7, 0, 0⟩] : List Placement).Pairwise
      (fun p q => ¬(p.day = q.day ∧ p.slot = q.slot)) :=
  ⟨by decide,
    C2_per_department_slot_uniqueness snapA [] cfgA
      [⟨10, 5, 7, 0, 1⟩, ⟨10, 5, 7, 0, 0⟩] 10 (by decide)⟩

/-- C3.  Unsatisfiable-by-construction short-circuit: a department
snapshot containing a subject with zero qualified staff or zero
classrooms makes `generate` return an UnsatisfiableByConstruction
failure naming an offending subject, with the whole backtrack budget
still unconsumed. -/
theorem C3_unsat_short_circuit (snap : Snapshot) (busy : List Row)
    (cfg : Config) (s : Subject) (hs : s ∈ snap.subjects)
    (hbad : qualifiedStaff snap s = [] ∨ snap.classrooms = []) :
    ∃ s2 ∈ snap.subjects,
      (qualifiedStaff snap s2 = [] ∨ snap.classrooms = []) ∧
      generate snap busy cfg = (.unsat s2.id s2.name, cfg.backtrackBudget) := by
  obtain ⟨s2, hfind⟩ :=
    Option.isSome_iff_exists.mp (unsatSubject_isSome hs hbad)
  have hmem : s2 ∈ snap.subjects := List.mem_of_find?_eq_some hfind
  have hp := List.find?_some hfind
  refine ⟨s2, hmem, ?_, ?_⟩
  · simp only [Bool.or_eq_true, List.isEmpty_iff] at hp
    exact hp
  · have hu : unsatSubject snap = some s2 := hfind
    simp [generate, hu]

/-- Witness for C3: the snapshot whose staff member selected a
different subject triggers the diagnostic naming subject 10 without
touching the budget. -/
theorem C3_unsat_short_circuit_witness :
    ∃ s2 ∈ snapNoQualified.subjects,
      (qualifiedStaff snapNoQualified s2 = [] ∨
        snapNoQualified.classrooms = []) ∧
      generate snapNoQualified [] cfgA =
        (.unsat s2.id s2.name, cfgA.backtrackBudget) :=
  C3_unsat_short_circuit snapNoQualified [] cfgA ⟨10, "Maths", 2⟩
    (by decide) (Or.inl (by decide))

/-- C4.  Determinism of generation: two `generate` calls whose
department snapshot, global occupancy and configuration (which carries
the random seed driving tie-breaking rotation and restarts) coincide
return identical results. -/
theorem C4_generate_deterministic
    (snap1 snap2 : Snapshot) (busy1 busy2 : List Row) (cfg1 cfg2 : Config)
    (hs : snap1 = snap2) (hb : busy1 = busy2) (hc : cfg1 = cfg2) :
    generate snap1 busy1 cfg1 = generate snap2 busy2 cfg2 := by
  rw [hs, hb, hc]

/-- Witness for C4 at Scenario A. -/
theorem C4_generate_deterministic_witness :
    generate snapA [] cfgA = generate snapA [] cfgA :=
  C4_generate_deterministic snapA snapA [] [] cfgA cfgA rfl rfl rfl

/-- C5, counterexample: the `users` table admits a staff row whose
`staff_role` is NULL — a SQLite `CHECK` is satisfied when its expression
is NULL — so an admitted staff record need not carry a role value from
{assistant_professor, professor, hod}. -/
theorem C5_staff_role_check_counterexample :
    userRowAccepted staffRowNullRole = true ∧
    staffRowNullRole.role = some "staff" ∧
    staffRowNullRole.staffRole = none := by
  decide

/-- C5, amended: any non-NULL `staff_role` value the `users` table
stores lies in {assistant_professor, professor, hod}; NULL is also
admitted. -/
theorem C5_staff_role_domain_amended (r : UserInsert) (s : String)
    (hacc : userRowAccepted r = true) (hsr : r.staffRole = some s) :
    s ∈ staffRoleValues := by
  simp only [userRowAccepted, hsr, Bool.and_eq_true] at hacc
  have hc := hacc.2
  simpa using hc

/-- Witness for the amended C5 at a stored hod. -/
theorem C5_staff_role_domain_amended_witness :
    userRowAccepted staffRowHod = true ∧ "hod" ∈ staffRoleValues :=
  ⟨by decide, C5_staff_role_domain_amended staffRowHod "hod" (by decide) rfl⟩

/-- C6, counterexample: the `subjects` table has no positivity
constraint on `credits` — a row with an explicit credit count of 0 is
accepted and stored with 0, so a zero-credit subject can reach a
generation run. -/
theorem C6_subject_credits_counterexample :
    subjectRowAccepted zeroCreditsSubjectRow = true ∧
    storedCredits zeroCreditsSubjectRow = some 0 := by
  decide

/-- C6, amended: positivity of `credits` holds only for the default —
a subject row inserted without a credits value is stored with the
default 3 — while the schema accepts any explicitly supplied credits
value unchanged. -/
theorem C6_subject_credits_amended (r : SubjectInsert) (c : Option Int) :
    (r.credits = none → storedCredits r = some 3) ∧
    subjectRowAccepted { r with credits := some c } = subjectRowAccepted r := by
  constructor
  · intro h
    simp [storedCredits, h]
  · rfl

/-- Witness for the amended C6 at a row relying on the default. -/
theorem C6_subject_credits_amended_witness :
    defaultCreditsSubjectRow.credits = none ∧
    storedCredits defaultCreditsSubjectRow = some 3 ∧
    subjectRowAccepted
        { defaultCreditsSubjectRow with credits := some (some 0) } =
      subjectRowAccepted defaultCreditsSubjectRow :=
  ⟨rfl, (C6_subject_credits_amended defaultCreditsSubjectRow (some 0)).1 rfl,
    (C6_subject_credits_amended defaultCreditsSubjectRow (some 0)).2⟩

/-- C7, counterexample: the `classrooms` table has no positivity
constraint on `capacity` — a row with capacity 0 is accepted, so a
zero-capacity classroom can reach a generation run. -/
theorem C7_classroom_capacity_counterexample :
    classroomRowAccepted zeroCapacityRoomRow = true ∧
    zeroCapacityRoomRow.capacity = some 0 := by
  decide

/-- C7, amended: the schema enforces only presence of `capacity`
(`NOT NULL`): every accepted classroom row carries some capacity value
and a NULL capacity is rejected, but positivity is not required. -/
theorem C7_classroom_capacity_amended (r : ClassroomInsert) :
    (classroomRowAccepted r = true → r.capacity.isSome = true) ∧
    (r.capacity = none → classroomRowAccepted r = false) := by
  constructor
  · intro h
    simp only [classroomRowAccepted, Bool.and_eq_true] at h
    exact h.1.2
  · intro h
    simp [classroomRowAccepted, h]

/-- Witness for the amended C7 at an ordinary accepted row. -/
theorem C7_classroom_capacity_amended_witness :
    classroomRowAccepted okRoomRow = true ∧ okRoomRow.capacity.isSome = true :=
  ⟨by decide, (C7_classroom_capacity_amended okRoomRow).1 (by decide)⟩

/-- C8.  Login is read-only: for every request body and every store
state, the login handler returns the store unchanged — across its 200,
400, 401 and 500 branches it performs no write. -/
theorem C8_login_read_only (chk : String → String → Bool)
    (mkTok : String → String) (body : Option LoginBody) (db : DB) :
    (login chk mkTok body db).2 = db := by
  cases body with
  | none => rfl
  | some b =>
    simp only [login]
    split
    · rfl
    · cases hf : findUserByEmail db (normalizeEmail (b.email.getD "")) with
      | none => simp [hf]
      | some u =>
        simp only [hf]
        split <;> rfl

/-- C9.  Login email normalization: the handler looks the user up by
the submitted email stripped of surrounding whitespace and lowercased,
so two submitted emails with the same normal form — in particular two
emails differing only in letter case or in leading/trailing
whitespace — produce identical login results. -/
theorem C9_login_email_normalization (chk : String → String → Bool)
    (mkTok : String → String) (db : DB) (e1 e2 pw : String)
    (h : normalizeEmail e1 = normalizeEmail e2) :
    login chk mkTok (some ⟨some e1, some pw⟩) db =
      login chk mkTok (some ⟨some e2, some pw⟩) db := by
  simp only [login, Option.getD_some, h]

/-- Witness for C9: an upper-cased, whitespace-padded variant of the
stored email logs in exactly like the stored spelling. -/
theorem C9_login_email_normalization_witness :
    normalizeEmail "  Alice@SRM.edu " = normalizeEmail "alice@srm.edu" ∧
    login chk0 tok0 (some ⟨some "  Alice@SRM.edu ", some "secret"⟩) db0 =
      login chk0 tok0 (some ⟨some "alice@srm.edu", some "secret"⟩) db0 :=
  ⟨by decide,
    C9_login_email_normalization chk0 tok0 db0 "  Alice@SRM.edu "
      "alice@srm.edu" "secret" (by decide)⟩

/-- C10.  Credential-failure indistinguishability: with a non-empty
normalized email and a non-empty password, the handler answers the
identical 401 response — status 401, error string
Invalid email or password — both when no user carries the email and
when a user does but the hash check rejects the password. -/
theorem C10_credential_failure_indistinguishable
    (chk : String → String → Bool) (mkTok : String → String)
    (db1 db2 : DB) (e pw : String) (u : UserRow)
    (hne : ¬ normalizeEmail e = "") (hpw : ¬ pw = "")
    (h1 : findUserByEmail db1 (normalizeEmail e) = none)
    (h2 : findUserByEmail db2 (normalizeEmail e) = some u)
    (h3 : chk u.passwordHash pw = false) :
    (login chk mkTok (some ⟨some e, some pw⟩) db1).1 =
        LoginResp.err 401 "Invalid email or password" ∧
    (login chk mkTok (some ⟨some e, some pw⟩) db2).1 =
        LoginResp.err 401 "Invalid email or password" := by
  constructor
  · simp [login, hne, hpw, h1]
  · simp [login, hne, hpw, h2, h3]

/-- Witness for C10: an unknown email against the empty store and a
wrong password against the store holding alice both produce the same
401 response. -/
theorem C10_credential_failure_indistinguishable_witness :
    (login chk0 tok0 (some ⟨some "alice@srm.edu", some "wrong"⟩) dbEmpty).1 =
        LoginResp.err 401 "Invalid email or password" ∧
    (login chk0 tok0 (some ⟨some "alice@srm.edu", some "wrong"⟩) db0).1 =
        LoginResp.err 401 "Invalid email or password" :=
  C10_credential_failure_indistinguishable chk0 tok0 dbEmpty db0
    "alice@srm.edu" "wrong" alice (by decide) (by decide) (by decide)
    (by decide) (by decide)

end SRM
